import Mathlib

/-
Verification of the mpsc-to-poll bridge module (src/src/mpsc/mod.rs).

The module wraps the two halves of a standard mpsc channel in the crate's
IoSource so that the consuming half becomes a pollable event source: every
operation is run through the guarded helper do_io, which on success signals
the wake primitive tied to the registration token, discarding wake failures.

Modelling choices:
- Items are natural numbers (the Rust code is generic in T).
- Chan is the shared state of one channel pair: the queue state (MpscChan)
  plus the wake-capable registration state (IoSourceState).  Following the
  design notes of the specification, the registration handle and the wake
  mechanism are shared between the endpoints of a pair (the source imports
  Arc and Mutex for exactly this sharing), so one IoSourceState per pair.
- The IoSource type itself (do_io, register, reregister, deregister) is not
  under src/; those definitions are modelled from the specification and
  carry a doc comment saying so.  In do_io, the parameter wf = true means
  the wake attempt fails; the field wakes counts delivered wake signals.
- The transfer semantics of the underlying std mpsc queue (an external
  collaborator the specification assumes correct and only wraps) are
  modelled from the specification: FIFO buffer, Empty and Disconnected on
  receive, Disconnected and Full on send, capacity-blocking bounded send.
  A blocking call that cannot complete is Option.none in this sequential
  model.
- Three places in the source are type-level slips with a unique well-typed
  completion and are embedded as completed: the closures written
  inner.send() and inner.try_send() omit the argument t (t is the only
  value of type T in scope and the declared result types carry it back on
  failure), and the constructors store the raw mpsc halves where the field
  type demands an IoSource.  Two further divergences are not completed
  silently but surfaced through the claims: the impl block at line 67 is
  written for SyncSender, leaving Sender with no send method, and the
  declared return type of try_send (mpsc::SendError) cannot carry the Full
  error its delegate produces.
-/

/-- Shared state of the underlying mpsc queue: FIFO buffer, optional
capacity bound (none for the unbounded channel), number of live producing
endpoints, and whether the consuming endpoint is still alive. -/
structure MpscChan where
  buffer : List Nat
  cap : Option Nat
  senders : Nat
  rxAlive : Bool
deriving DecidableEq, Repr

/-- Error type of mpsc::Receiver::try_recv. -/
inductive TryRecvError where
  | empty
  | disconnected
deriving DecidableEq, Repr

/-- Error type of mpsc::SendError, carrying the undelivered item back. -/
inductive SendError where
  | disconnected (t : Nat)
deriving DecidableEq, Repr

/-- Error type of mpsc::TrySendError, carrying the undelivered item back. -/
inductive TrySendError where
  | full (t : Nat)
  | disconnected (t : Nat)
deriving DecidableEq, Repr

/-- Registration lifecycle errors reported by the reactor wrapper. -/
inductive RegError where
  | alreadyRegistered
  | notRegistered
deriving DecidableEq, Repr

/-- Wake-capable registration state of the IoSource wrapper: the stored
registration token (none while unregistered) and the count of wake signals
successfully delivered to the reactor. -/
structure IoSourceState where
  token : Option Nat
  wakes : Nat
deriving DecidableEq, Repr

/-- Combined state of one channel pair. -/
structure Chan where
  q : MpscChan
  reg : IoSourceState
deriving DecidableEq, Repr

/-- Modelled from the spec: the underlying queue's non-blocking receive
(std mpsc try_recv, an external collaborator assumed correct): returns the
oldest buffered item; on an empty buffer it reports Disconnected when every
producing endpoint has been dropped and Empty otherwise, so disconnection
is reported only once all buffered items have been drained. -/
def mpsc_try_recv (c : MpscChan) : Except TryRecvError Nat × MpscChan :=
  match c.buffer with
  | [] =>
      if c.senders = 0 then (Except.error TryRecvError.disconnected, c)
      else (Except.error TryRecvError.empty, c)
  | x :: rest => (Except.ok x, { c with buffer := rest })

/-- Modelled from the spec: the unbounded transfer (std mpsc send): fails
with Disconnected carrying the item back when the consuming endpoint has
been dropped, otherwise appends the item to the FIFO buffer. -/
def mpsc_send (t : Nat) (c : MpscChan) : Except SendError Unit × MpscChan :=
  if c.rxAlive then (Except.ok (), { c with buffer := c.buffer ++ [t] })
  else (Except.error (SendError.disconnected t), c)

/-- Modelled from the spec: the capacity-blocking bounded transfer
(std mpsc SyncSender send): fails with Disconnected carrying the item back
when the consuming endpoint has been dropped; appends the item when there
is spare capacity; Option.none encodes that the call blocks waiting for
capacity (no completion in this sequential model). -/
def mpsc_send_sync (t : Nat) (c : MpscChan) :
    Option (Except SendError Unit × MpscChan) :=
  if c.rxAlive then
    match c.cap with
    | none => some (Except.ok (), { c with buffer := c.buffer ++ [t] })
    | some k =>
        if c.buffer.length < k then
          some (Except.ok (), { c with buffer := c.buffer ++ [t] })
        else none
  else some (Except.error (SendError.disconnected t), c)

/-- Modelled from the spec: the non-blocking bounded transfer (std mpsc
try_send): Disconnected carrying the item back when the consumer is gone,
Full carrying the item back when the buffer already holds the capacity,
otherwise appends the item.  Never blocks. -/
def mpsc_try_send (t : Nat) (c : MpscChan) :
    Except TrySendError Unit × MpscChan :=
  if c.rxAlive then
    match c.cap with
    | none => (Except.ok (), { c with buffer := c.buffer ++ [t] })
    | some k =>
        if c.buffer.length < k then
          (Except.ok (), { c with buffer := c.buffer ++ [t] })
        else (Except.error (TrySendError.full t), c)
  else (Except.error (TrySendError.disconnected t), c)

/-- Modelled from the spec: IoSource::do_io, the guarded-execution helper
(run_guarded, spec section 4.1) — the IoSource type is not under src/.
It invokes op against the inner resource and returns op's result unchanged;
when op succeeds it attempts to signal the wake primitive associated with
the current token (a no-op when no token is attached); a failure of the
wake attempt (wf = true) is discarded and never surfaces to the caller. -/
def do_io {E A : Type} (op : MpscChan → Except E A × MpscChan) (wf : Bool)
    (s : Chan) : Except E A × Chan :=
  match op s.q with
  | (Except.ok v, q2) =>
      if s.reg.token.isSome && !wf then
        (Except.ok v, ⟨q2, ⟨s.reg.token, s.reg.wakes + 1⟩⟩)
      else (Except.ok v, ⟨q2, s.reg⟩)
  | (Except.error err, q2) => (Except.error err, ⟨q2, s.reg⟩)

/-- Modelled from the spec: the same guarded-execution helper for an inner
operation that may block (the capacity-blocking bounded send); a blocked
call (none) performs no wake and produces no result. -/
def do_io_blocking {E A : Type}
    (op : MpscChan → Option (Except E A × MpscChan)) (wf : Bool) (s : Chan) :
    Option (Except E A × Chan) :=
  match op s.q with
  | none => none
  | some (Except.ok v, q2) =>
      if s.reg.token.isSome && !wf then
        some (Except.ok v, ⟨q2, ⟨s.reg.token, s.reg.wakes + 1⟩⟩)
      else some (Except.ok v, ⟨q2, s.reg⟩)
  | some (Except.error err, q2) => some (Except.error err, ⟨q2, s.reg⟩)

/-- Modelled from the spec: IoSource::register (spec section 4.1) — not
under src/.  Fails with AlreadyRegistered when a token is already attached,
leaving the state unchanged; otherwise stores the token.  The reactor
collaborator is modelled as accepting every registration, so its own
failure modes (invalid interests, exhausted capacity) do not appear. -/
def IoSource.register (tok : Nat) (s : Chan) : Except RegError Unit × Chan :=
  match s.reg.token with
  | some _ => (Except.error RegError.alreadyRegistered, s)
  | none => (Except.ok (), ⟨s.q, ⟨some tok, s.reg.wakes⟩⟩)

/-- Modelled from the spec: IoSource::reregister (spec section 4.1) — not
under src/.  Fails with NotRegistered when no token is attached, leaving
the state unchanged; otherwise replaces the stored token. -/
def IoSource.reregister (tok : Nat) (s : Chan) : Except RegError Unit × Chan :=
  match s.reg.token with
  | none => (Except.error RegError.notRegistered, s)
  | some _ => (Except.ok (), ⟨s.q, ⟨some tok, s.reg.wakes⟩⟩)

/-- Modelled from the spec: IoSource::deregister (spec section 4.1) — not
under src/.  Fails with NotRegistered when no token is attached, leaving
the state unchanged; otherwise clears the stored token. -/
def IoSource.deregister (s : Chan) : Except RegError Unit × Chan :=
  match s.reg.token with
  | none => (Except.error RegError.notRegistered, s)
  | some _ => (Except.ok (), ⟨s.q, ⟨none, s.reg.wakes⟩⟩)

/-- Source lines 12 to 16: channel() builds an unbounded pair with one live
producing endpoint, a live consuming endpoint, and a fresh (unregistered,
no wakes delivered) IoSource state. -/
def channel : Chan :=
  ⟨⟨[], none, 1, true⟩, ⟨none, 0⟩⟩

/-- Source lines 22 to 26: sync_channel(bound) builds a bounded pair with
capacity bound, one live producing endpoint, a live consuming endpoint, and
a fresh (unregistered, no wakes delivered) IoSource state. -/
def sync_channel (bound : Nat) : Chan :=
  ⟨⟨[], some bound, 1, true⟩, ⟨none, 0⟩⟩

/-- Source lines 34 to 36: Receiver::try_recv delegates the underlying
try_recv through the guarded helper do_io. -/
def Receiver.try_recv (wf : Bool) (s : Chan) : Except TryRecvError Nat × Chan :=
  do_io mpsc_try_recv wf s

/-- Source lines 40 to 47: Receiver::register forwards verbatim to the
wrapper's register. -/
def Receiver.register (tok : Nat) (s : Chan) : Except RegError Unit × Chan :=
  IoSource.register tok s

/-- Source lines 49 to 56: Receiver::reregister forwards verbatim to the
wrapper's reregister. -/
def Receiver.reregister (tok : Nat) (s : Chan) : Except RegError Unit × Chan :=
  IoSource.reregister tok s

/-- Source lines 58 to 60: Receiver::deregister forwards verbatim to the
wrapper's deregister. -/
def Receiver.deregister (s : Chan) : Except RegError Unit × Chan :=
  IoSource.deregister s

/-- Source lines 82 to 90 (the same text also appears at lines 67 to 76,
misattributed to struct Sender): SyncSender::send runs the underlying
capacity-blocking send through the guarded helper.  The closure is written
inner.send() with the argument t omitted — a compile-level slip whose only
well-typed completion is inner.send(t), used here. -/
def SyncSender.send (t : Nat) (wf : Bool) (s : Chan) :
    Option (Except SendError Unit × Chan) :=
  do_io_blocking (mpsc_send_sync t) wf s

/-- Source lines 97 to 99: SyncSender::try_send runs the underlying
non-blocking bounded send through the guarded helper.  The closure is
written inner.try_send() with the argument t omitted (completed as
inner.try_send(t)); the declared return type in the source is
mpsc::SendError, which cannot carry the Full error the delegate produces —
this embedding uses the delegate's actual error type (see claim C5). -/
def SyncSender.try_send (t : Nat) (wf : Bool) (s : Chan) :
    Except TrySendError Unit × Chan :=
  do_io (mpsc_try_send t) wf s

/-- Modelled from the spec: the unbounded SendingEndpoint::send of spec
section 4.3.  The source declares struct Sender at line 63, but the impl
block that follows at line 67 is written for SyncSender, so src contains no
Sender::send; this definition follows the spec's words (delegate to the
unbounded transfer through the guarded helper). -/
def Sender.send_intended (t : Nat) (wf : Bool) (s : Chan) :
    Except SendError Unit × Chan :=
  do_io (mpsc_send t) wf s

/-- The claims' consumer loop: call try_recv repeatedly, collecting the
received items in order and stopping at the first error (Empty or
Disconnected); fuel bounds the number of iterations. -/
def drainFuel (wf : Bool) : Nat → Chan → List Nat × Chan
  | 0, s => ([], s)
  | n + 1, s =>
      match Receiver.try_recv wf s with
      | (Except.ok x, s2) =>
          let p := drainFuel wf n s2
          (x :: p.1, p.2)
      | (Except.error _, s2) => ([], s2)

/-- Drain with enough fuel to empty the buffer and observe the final
error. -/
def drain (wf : Bool) (s : Chan) : List Nat × Chan :=
  drainFuel wf (s.q.buffer.length + 1) s

/-- The claims' producer loop: send the items in order through
SyncSender::send; none when some send blocks or fails. -/
def sendAll (wf : Bool) : List Nat → Chan → Option Chan
  | [], s => some s
  | t :: ts, s =>
      match SyncSender.send t wf s with
      | some (Except.ok _, s2) => sendAll wf ts s2
      | _ => none

/-- Helper: do_io hands back exactly the inner operation's outcome. -/
theorem do_io_fst {E A : Type} (op : MpscChan → Except E A × MpscChan)
    (wf : Bool) (s : Chan) : (do_io op wf s).1 = (op s.q).1 := by
  unfold do_io
  rcases hop : op s.q with ⟨r, q2⟩
  cases r <;> simp <;> split <;> simp

/-- Helper: the blocking variant hands back exactly the inner operation's
outcome. -/
theorem do_io_blocking_fst {E A : Type}
    (op : MpscChan → Option (Except E A × MpscChan)) (wf : Bool) (s : Chan) :
    (do_io_blocking op wf s).map Prod.fst = (op s.q).map Prod.fst := by
  unfold do_io_blocking
  rcases hop : op s.q with _ | ⟨r, q2⟩
  · simp
  · cases r <;> simp <;> split <;> simp

/-- Helper: inverting a successful blocking guarded call: the inner
operation completed with the same value and produced the resulting queue
state. -/
theorem do_io_blocking_ok {E A : Type}
    (op : MpscChan → Option (Except E A × MpscChan)) (wf : Bool)
    (s s2 : Chan) (v : A) (h : do_io_blocking op wf s = some (Except.ok v, s2)) :
    op s.q = some (Except.ok v, s2.q) := by
  unfold do_io_blocking at h
  rcases hop : op s.q with _ | ⟨r, q2⟩ <;> rw [hop] at h
  · simp at h
  · cases r with
    | error e => simp at h
    | ok w =>
        by_cases hw : (s.reg.token.isSome && !wf) = true <;> simp [hw] at h <;>
          (obtain ⟨h1, h2⟩ := h; subst h1; subst h2; simpa using hop)

/-- Helper: inverting a successful bounded blocking transfer. -/
theorem mpsc_send_sync_ok (t : Nat) (c c2 : MpscChan) (v : Unit)
    (h : mpsc_send_sync t c = some (Except.ok v, c2)) :
    c2 = { c with buffer := c.buffer ++ [t] } := by
  obtain ⟨buf, cp, snd, rx⟩ := c
  cases rx
  · simp [mpsc_send_sync] at h
  · cases cp with
    | none => simp [mpsc_send_sync] at h; exact h.symm
    | some k =>
        by_cases hk : buf.length < k <;> simp [mpsc_send_sync, hk] at h
        exact h.symm

/-- Helper: a successful SyncSender::send appends the item to the shared
queue and changes nothing else of the queue state. -/
theorem syncSend_ok_q (t : Nat) (wf : Bool) (s s2 : Chan) (v : Unit)
    (h : SyncSender.send t wf s = some (Except.ok v, s2)) :
    s2.q = { s.q with buffer := s.q.buffer ++ [t] } :=
  mpsc_send_sync_ok t s.q s2.q v (do_io_blocking_ok (mpsc_send_sync t) wf s s2 v h)

/-- Helper: a completed producer loop appends exactly the sent items, in
order, to the shared queue. -/
theorem sendAll_buffer (wf : Bool) :
    ∀ (L : List Nat) (s s2 : Chan), sendAll wf L s = some s2 →
      s2.q = { s.q with buffer := s.q.buffer ++ L } := by
  intro L
  induction L with
  | nil =>
      intro s s2 h
      simp [sendAll] at h
      subst h
      simp
  | cons t ts ih =>
      intro s s2 h
      rcases hs : SyncSender.send t wf s with _ | ⟨r, s1⟩
      · simp only [sendAll, hs] at h
        simp at h
      · cases r with
        | error e =>
            simp only [sendAll, hs] at h
            simp at h
        | ok v =>
            simp only [sendAll, hs] at h
            have hq := syncSend_ok_q t wf s s1 v hs
            rw [ih s1 s2 h, hq]
            simp

/-- Helper: try_recv on an empty buffer reports an error and leaves the
whole state unchanged. -/
theorem try_recv_nil (wf : Bool) (s : Chan) (h : s.q.buffer = []) :
    ∃ err, Receiver.try_recv wf s = (Except.error err, s) := by
  obtain ⟨⟨buf, cp, snd, rx⟩, tk, wk⟩ := s
  simp only at h
  subst h
  by_cases hs : snd = 0
  · exact ⟨TryRecvError.disconnected, by simp [Receiver.try_recv, do_io, mpsc_try_recv, hs]⟩
  · exact ⟨TryRecvError.empty, by simp [Receiver.try_recv, do_io, mpsc_try_recv, hs]⟩

/-- Helper: try_recv on a non-empty buffer returns the oldest item and
pops it from the queue. -/
theorem try_recv_cons (wf : Bool) (s : Chan) (x : Nat) (r : List Nat)
    (h : s.q.buffer = x :: r) :
    (Receiver.try_recv wf s).1 = Except.ok x ∧
    (Receiver.try_recv wf s).2.q = { s.q with buffer := r } := by
  obtain ⟨⟨buf, cp, snd, rx⟩, tk, wk⟩ := s
  simp only at h
  subst h
  by_cases hw : (tk.isSome && !wf) = true <;>
    simp [Receiver.try_recv, do_io, mpsc_try_recv, hw]

/-- Helper: with enough fuel, the consumer loop returns exactly the
buffered items, in queue order. -/
theorem drainFuel_buffer (wf : Bool) (fuel : Nat) :
    ∀ (s : Chan), s.q.buffer.length < fuel →
      (drainFuel wf fuel s).1 = s.q.buffer := by
  induction fuel with
  | zero => intro s h; exact absurd h (Nat.not_lt_zero _)
  | succ n ih =>
      intro s h
      cases hb : s.q.buffer with
      | nil =>
          obtain ⟨err, he⟩ := try_recv_nil wf s hb
          simp [drainFuel, he, hb]
      | cons x r =>
          obtain ⟨h1, h2⟩ := try_recv_cons wf s x r hb
          rcases hrr : Receiver.try_recv wf s with ⟨r1, s2⟩
          rw [hrr] at h1 h2
          replace h1 : r1 = Except.ok x := h1
          replace h2 : s2.q = { s.q with buffer := r } := h2
          subst h1
          have hb2 : s2.q.buffer = r := by rw [h2]
          have hlen : s2.q.buffer.length < n := by
            rw [hb2]
            rw [hb] at h
            simpa using Nat.lt_of_succ_lt_succ h
          simp [drainFuel, hrr, hb, ih s2 hlen, hb2]

/-- C1: every operation run through the guarded-execution helper do_io
(or its blocking variant) hands the caller exactly the inner operation's
own outcome: the outcome is independent of whether the post-success wake
attempt fails (wf), and the results of SyncSender::send, SyncSender::try_send
and Receiver::try_recv equal the outcomes of the underlying transfers. -/
theorem do_io_result_isolated_from_wake_failure :
    ∀ (E A : Type) (op : MpscChan → Except E A × MpscChan)
      (opb : MpscChan → Option (Except E A × MpscChan))
      (wf wf2 : Bool) (s : Chan) (t : Nat),
      (do_io op wf s).1 = (op s.q).1 ∧
      (do_io op wf s).1 = (do_io op wf2 s).1 ∧
      (do_io_blocking opb wf s).map Prod.fst = (opb s.q).map Prod.fst ∧
      (SyncSender.send t wf s).map Prod.fst =
        (SyncSender.send t wf2 s).map Prod.fst ∧
      (SyncSender.send t wf s).map Prod.fst =
        (mpsc_send_sync t s.q).map Prod.fst ∧
      (SyncSender.try_send t wf s).1 = (mpsc_try_send t s.q).1 ∧
      (SyncSender.try_send t wf s).1 = (SyncSender.try_send t wf2 s).1 ∧
      (Receiver.try_recv wf s).1 = (mpsc_try_recv s.q).1 ∧
      (Receiver.try_recv wf s).1 = (Receiver.try_recv wf2 s).1 := by
  intro E A op opb wf wf2 s t
  refine ⟨do_io_fst op wf s, ?_, do_io_blocking_fst opb wf s, ?_, ?_, ?_, ?_, ?_, ?_⟩
  · rw [do_io_fst op wf s, do_io_fst op wf2 s]
  · simp only [SyncSender.send]
    rw [do_io_blocking_fst (mpsc_send_sync t) wf s,
      do_io_blocking_fst (mpsc_send_sync t) wf2 s]
  · exact do_io_blocking_fst (mpsc_send_sync t) wf s
  · exact do_io_fst (mpsc_try_send t) wf s
  · simp only [SyncSender.try_send]
    rw [do_io_fst (mpsc_try_send t) wf s, do_io_fst (mpsc_try_send t) wf2 s]
  · exact do_io_fst mpsc_try_recv wf s
  · simp only [Receiver.try_recv]
    rw [do_io_fst mpsc_try_recv wf s, do_io_fst mpsc_try_recv wf2 s]

/-- C2 counterexample: the claim says Receiver::try_recv never triggers the
wake primitive.  On a registered consuming endpoint whose queue holds one
item, a successful try_recv runs through the same guarded helper as the
sends and delivers a wake signal: the wake count rises from 0 to 1. -/
theorem try_recv_fires_wake_on_success_counterexample :
    (Receiver.try_recv false
        (⟨⟨[7], none, 1, true⟩, ⟨some 0, 0⟩⟩ : Chan)).1 = Except.ok 7 ∧
    (⟨⟨[7], none, 1, true⟩, ⟨some 0, 0⟩⟩ : Chan).reg.wakes = 0 ∧
    (Receiver.try_recv false
        (⟨⟨[7], none, 1, true⟩, ⟨some 0, 0⟩⟩ : Chan)).2.reg.wakes = 1 :=
  ⟨rfl, rfl, rfl⟩

/-- C2 amended: Receiver::try_recv triggers no wake when it returns Empty
or Disconnected, when the endpoint is unregistered, or when the wake
attempt fails; but a successful try_recv on a registered endpoint does
deliver a wake signal, because it runs through the same guarded helper as
the producer-side sends. -/
theorem try_recv_wake_frame_characterization (wf : Bool) (s : Chan) :
    (∀ err, (Receiver.try_recv wf s).1 = Except.error err →
      (Receiver.try_recv wf s).2.reg = s.reg) ∧
    (s.reg.token = none → (Receiver.try_recv wf s).2.reg = s.reg) ∧
    (wf = true → (Receiver.try_recv wf s).2.reg = s.reg) ∧
    (∀ x t0, (Receiver.try_recv wf s).1 = Except.ok x →
      s.reg.token = some t0 → wf = false →
      (Receiver.try_recv wf s).2.reg.wakes = s.reg.wakes + 1) := by
  obtain ⟨⟨buf, cp, snd, rx⟩, tk, wk⟩ := s
  cases buf with
  | nil =>
      by_cases hs : snd = 0 <;>
        simp [Receiver.try_recv, do_io, mpsc_try_recv, hs]
  | cons x r =>
      cases tk with
      | none => cases wf <;> simp [Receiver.try_recv, do_io, mpsc_try_recv]
      | some t1 => cases wf <;> simp [Receiver.try_recv, do_io, mpsc_try_recv]

/-- C2 witness for the amended statement: on a fresh (unregistered)
channel, try_recv leaves the registration state untouched. -/
theorem try_recv_wake_frame_characterization_witness :
    (Receiver.try_recv false channel).2.reg = channel.reg :=
  (try_recv_wake_frame_characterization false channel).2.1 rfl

/-- C3: intended behavior of the unbounded Sender::send (the source's impl
block for it is misattributed to SyncSender, see the code-bug record): on
success the item is appended to the unbounded queue and, on a registered
endpoint with a working wake primitive, a wake is delivered; if the
consuming endpoint has been dropped it fails with Disconnected carrying
that same item back and changes nothing. -/
theorem sender_send_modelled_spec (t : Nat) (wf : Bool) (s : Chan) :
    (s.q.rxAlive = true →
      (Sender.send_intended t wf s).1 = Except.ok () ∧
      (Sender.send_intended t wf s).2.q.buffer = s.q.buffer ++ [t]) ∧
    (s.q.rxAlive = false →
      Sender.send_intended t wf s = (Except.error (SendError.disconnected t), s)) ∧
    (s.q.rxAlive = true → ∀ t0, s.reg.token = some t0 → wf = false →
      (Sender.send_intended t wf s).2.reg.wakes = s.reg.wakes + 1) := by
  obtain ⟨⟨buf, cp, snd, rx⟩, tk, wk⟩ := s
  cases rx with
  | false => simp [Sender.send_intended, do_io, mpsc_send]
  | true =>
      cases tk with
      | none => cases wf <;> simp [Sender.send_intended, do_io, mpsc_send]
      | some t1 => cases wf <;> simp [Sender.send_intended, do_io, mpsc_send]

/-- C3 witness: on a fresh unbounded channel the send succeeds and enqueues
the item; on a pair whose consumer is gone, the item comes back inside
Disconnected. -/
theorem sender_send_modelled_spec_witness :
    ((Sender.send_intended 9 false channel).1 = Except.ok () ∧
      (Sender.send_intended 9 false channel).2.q.buffer =
        channel.q.buffer ++ [9]) ∧
    Sender.send_intended 9 false (⟨⟨[], none, 1, false⟩, ⟨none, 0⟩⟩ : Chan) =
      (Except.error (SendError.disconnected 9),
        (⟨⟨[], none, 1, false⟩, ⟨none, 0⟩⟩ : Chan)) :=
  ⟨(sender_send_modelled_spec 9 false channel).1 rfl,
   (sender_send_modelled_spec 9 false
      (⟨⟨[], none, 1, false⟩, ⟨none, 0⟩⟩ : Chan)).2.1 rfl⟩

/-- C4: a producer sending any sequence of items through SyncSender::send,
followed by the consumer draining with try_recv in a loop until the first
error, receives exactly the multiset of items sent — nothing lost, nothing
duplicated. -/
theorem send_drain_multiset_preserved (L : List Nat) (wf : Bool)
    (bound : Nat) (s2 : Chan)
    (h : sendAll wf L (sync_channel bound) = some s2) :
    Multiset.ofList (drain wf s2).1 = Multiset.ofList L := by
  have hq := sendAll_buffer wf L (sync_channel bound) s2 h
  have hbuf : s2.q.buffer = L := by rw [hq]; simp [sync_channel]
  have hd := drainFuel_buffer wf (s2.q.buffer.length + 1) s2 (by omega)
  unfold drain
  rw [hd, hbuf]

/-- C4 witness: sending 1 then 2 on a bounded pair of capacity 2 and
draining yields the multiset with exactly 1 and 2. -/
theorem send_drain_multiset_preserved_witness :
    Multiset.ofList
        (drain false (⟨⟨[1, 2], some 2, 1, true⟩, ⟨none, 0⟩⟩ : Chan)).1 =
      Multiset.ofList [1, 2] :=
  send_drain_multiset_preserved [1, 2] false 2
    (⟨⟨[1, 2], some 2, 1, true⟩, ⟨none, 0⟩⟩ : Chan) rfl

/-- C5: evaluating the non-blocking bounded send at the failing input of
the code-bug record: with capacity 1 already holding one item, the
underlying delegate of SyncSender::try_send yields Full carrying the item
back — an outcome the source's declared return type mpsc::SendError cannot
represent; with spare capacity it succeeds, and with the consumer gone it
yields Disconnected carrying the item back. -/
theorem try_send_full_at_capacity :
    (SyncSender.try_send 42 false
        (⟨⟨[9], some 1, 1, true⟩, ⟨none, 0⟩⟩ : Chan)).1 =
      Except.error (TrySendError.full 42) ∧
    (SyncSender.try_send 42 false
        (⟨⟨[], some 1, 1, true⟩, ⟨none, 0⟩⟩ : Chan)).1 = Except.ok () ∧
    (SyncSender.try_send 42 false
        (⟨⟨[], some 1, 1, false⟩, ⟨none, 0⟩⟩ : Chan)).1 =
      Except.error (TrySendError.disconnected 42) :=
  ⟨rfl, rfl, rfl⟩

/-- C6: Receiver::try_recv reports Disconnected exactly when every
producing endpoint has been dropped and the buffer is already empty; while
items remain buffered it returns them (whatever the producer count), and
the call right after the last buffered item is drained reports
Disconnected, not Empty. -/
theorem try_recv_disconnected_iff_drained (s : Chan) (wf : Bool) :
    ((Receiver.try_recv wf s).1 = Except.error TryRecvError.disconnected ↔
      s.q.senders = 0 ∧ s.q.buffer = []) ∧
    (∀ x r, s.q.buffer = x :: r → (Receiver.try_recv wf s).1 = Except.ok x) ∧
    (∀ x, s.q.senders = 0 → s.q.buffer = [x] →
      (Receiver.try_recv wf ((Receiver.try_recv wf s).2)).1 =
        Except.error TryRecvError.disconnected) := by
  obtain ⟨⟨buf, cp, snd, rx⟩, tk, wk⟩ := s
  cases buf with
  | nil =>
      by_cases hs : snd = 0 <;>
        simp [Receiver.try_recv, do_io, mpsc_try_recv, hs]
  | cons x r =>
      refine ⟨?_, ?_, ?_⟩
      · by_cases hw : (tk.isSome && !wf) = true <;>
          simp [Receiver.try_recv, do_io, mpsc_try_recv, hw]
      · intro y r2 hy
        replace hy : x :: r = y :: r2 := hy
        injection hy with h1 h2
        subst h1
        subst h2
        by_cases hw : (tk.isSome && !wf) = true <;>
          simp [Receiver.try_recv, do_io, mpsc_try_recv, hw]
      · intro y hsnd hxy
        replace hsnd : snd = 0 := hsnd
        replace hxy : x :: r = [y] := hxy
        injection hxy with h1 h2
        subst h1
        subst h2
        subst hsnd
        by_cases hw : (tk.isSome && !wf) = true <;>
          simp [Receiver.try_recv, do_io, mpsc_try_recv, hw]

/-- C6 witness: with all producers dropped and one item still buffered,
try_recv returns the item and the very next call reports Disconnected. -/
theorem try_recv_disconnected_iff_drained_witness :
    (Receiver.try_recv false
        ((Receiver.try_recv false
            (⟨⟨[5], none, 0, true⟩, ⟨none, 0⟩⟩ : Chan)).2)).1 =
      Except.error TryRecvError.disconnected :=
  (try_recv_disconnected_iff_drained
      (⟨⟨[5], none, 0, true⟩, ⟨none, 0⟩⟩ : Chan) false).2.2 5 rfl rfl

/-- C7: at most one registration token is ever attached: register fails
with AlreadyRegistered and mutates nothing whenever a token is attached,
and on success stores exactly the token passed in; reregister and
deregister likewise either fail with NotRegistered leaving the state
unchanged, or leave exactly one (respectively no) stored token — so every
lifecycle call preserves the single-token invariant. -/
theorem register_token_invariant (tok : Nat) (s : Chan) :
    (s.reg.token = none →
      Receiver.register tok s =
        (Except.ok (), ⟨s.q, ⟨some tok, s.reg.wakes⟩⟩)) ∧
    (∀ t0, s.reg.token = some t0 →
      Receiver.register tok s = (Except.error RegError.alreadyRegistered, s)) ∧
    (s.reg.token = none →
      Receiver.reregister tok s = (Except.error RegError.notRegistered, s)) ∧
    (∀ t0, s.reg.token = some t0 →
      Receiver.reregister tok s =
        (Except.ok (), ⟨s.q, ⟨some tok, s.reg.wakes⟩⟩)) ∧
    (s.reg.token = none →
      Receiver.deregister s = (Except.error RegError.notRegistered, s)) ∧
    (∀ t0, s.reg.token = some t0 →
      Receiver.deregister s = (Except.ok (), ⟨s.q, ⟨none, s.reg.wakes⟩⟩)) := by
  obtain ⟨⟨buf, cp, snd, rx⟩, tk, wk⟩ := s
  cases tk <;>
    simp [Receiver.register, Receiver.reregister, Receiver.deregister,
      IoSource.register, IoSource.reregister, IoSource.deregister]

/-- C7 witness: registering token 3 on a fresh channel succeeds and stores
exactly token 3; registering again fails with AlreadyRegistered and leaves
the state unchanged. -/
theorem register_token_invariant_witness :
    Receiver.register 3 channel =
      (Except.ok (), ⟨channel.q, ⟨some 3, channel.reg.wakes⟩⟩) ∧
    Receiver.register 4 (⟨channel.q, ⟨some 3, 0⟩⟩ : Chan) =
      (Except.error RegError.alreadyRegistered,
        (⟨channel.q, ⟨some 3, 0⟩⟩ : Chan)) :=
  ⟨(register_token_invariant 3 channel).1 rfl,
   (register_token_invariant 4 (⟨channel.q, ⟨some 3, 0⟩⟩ : Chan)).2.1 3 rfl⟩

/-- C8: two deregister calls with no intervening register: whatever the
starting state, after the first call the token is absent, and the second
call fails with NotRegistered while mutating nothing — the endpoint's
token state stays absent. -/
theorem deregister_twice_not_registered (s : Chan) :
    ((Receiver.deregister s).2).reg.token = none ∧
    (Receiver.deregister ((Receiver.deregister s).2)).1 =
      Except.error RegError.notRegistered ∧
    (Receiver.deregister ((Receiver.deregister s).2)).2 =
      (Receiver.deregister s).2 := by
  obtain ⟨⟨buf, cp, snd, rx⟩, tk, wk⟩ := s
  cases tk <;> simp [Receiver.deregister, IoSource.deregister]

/-- C9: items sent sequentially by a single producer are received in
exactly the order they were sent: after any completed sequence of
SyncSender::send calls on a fresh bounded pair, the consumer's drain loop
yields precisely the sent list, so the i-th sent item is received strictly
before the j-th whenever i < j. -/
theorem send_drain_fifo_order (L : List Nat) (wf : Bool) (bound : Nat)
    (s2 : Chan) (h : sendAll wf L (sync_channel bound) = some s2) :
    (drain wf s2).1 = L := by
  have hq := sendAll_buffer wf L (sync_channel bound) s2 h
  have hbuf : s2.q.buffer = L := by rw [hq]; simp [sync_channel]
  have hd := drainFuel_buffer wf (s2.q.buffer.length + 1) s2 (by omega)
  unfold drain
  rw [hd, hbuf]

/-- C9 witness: sending 4 then 5 then 6 on a bounded pair of capacity 3
drains back as the list 4, 5, 6 in that order. -/
theorem send_drain_fifo_order_witness :
    (drain false (⟨⟨[4, 5, 6], some 3, 1, true⟩, ⟨none, 0⟩⟩ : Chan)).1 =
      [4, 5, 6] :=
  send_drain_fifo_order [4, 5, 6] false 3
    (⟨⟨[4, 5, 6], some 3, 1, true⟩, ⟨none, 0⟩⟩ : Chan) rfl

/-- C10: on a freshly constructed pair from channel() or
sync_channel(bound), with the sending endpoint alive and nothing sent,
try_recv returns the transient Empty error (not Disconnected), and the
receiver starts unregistered (no token attached). -/
theorem fresh_channel_empty_and_unregistered (bound : Nat) (wf : Bool) :
    (Receiver.try_recv wf channel).1 = Except.error TryRecvError.empty ∧
    channel.reg.token = none ∧
    (Receiver.try_recv wf (sync_channel bound)).1 =
      Except.error TryRecvError.empty ∧
    (sync_channel bound).reg.token = none := by
  refine ⟨rfl, rfl, rfl, rfl⟩
